import Mathlib

/-!
Shallow embedding of the SIM-card management core (modem command engine,
GSM 7-bit codec, SMS submission pipeline, SIM-info cache, fleet coordinator)
together with theorems settling the specification claims against it.

Python semantics conventions used throughout:
* `needle in haystack` on strings is substring containment (`pyIn`).
* A transport is scripted: each `_send_at_command` read window is the list of
  stripped lines the serial port delivers before the deadline.
* Machine-level facts of the Python runtime (e.g. `str.upper`,
  `timedelta.seconds`, `str.encode` with a nonexistent codec) are modelled
  explicitly with a justifying comment at the definition.
-/

deriving instance DecidableEq for Except

namespace SimMgmt

/-- Python `needle in haystack` for strings: substring containment. -/
def pyIn (needle hay : String) : Bool := decide (needle.toList <:+: hay.toList)

/-! ## Text codec (`backend/core/ussd_encoder.py`) -/

/-- The `GSM_7BIT_CHARS` table of `UssdEncoderDecoder`, verbatim. -/
def GSM_7BIT_CHARS : List (Char × Nat) :=
  [('@', 0x00), ('£', 0x01), ('$', 0x02), ('¥', 0x03), ('è', 0x04), ('é', 0x05), ('ù', 0x06), ('ì', 0x07),
   ('ò', 0x08), ('Ç', 0x09), ('\n', 0x0A), ('Ø', 0x0B), ('ø', 0x0C), ('\r', 0x0D), ('Å', 0x0E), ('å', 0x0F),
   ('Δ', 0x10), ('_', 0x11), ('Φ', 0x12), ('Γ', 0x13), ('Λ', 0x14), ('Ω', 0x15), ('Π', 0x16), ('Ψ', 0x17),
   ('Σ', 0x18), ('Θ', 0x19), ('Ξ', 0x1A), (' ', 0x20), ('!', 0x21), ('"', 0x22), ('#', 0x23), ('¤', 0x24),
   ('%', 0x25), ('&', 0x26), ('\x27', 0x27), ('(', 0x28), (')', 0x29), ('*', 0x2A), ('+', 0x2B), (',', 0x2C),
   ('-', 0x2D), ('.', 0x2E), ('/', 0x2F), ('0', 0x30), ('1', 0x31), ('2', 0x32), ('3', 0x33), ('4', 0x34),
   ('5', 0x35), ('6', 0x36), ('7', 0x37), ('8', 0x38), ('9', 0x39), (':', 0x3A), (';', 0x3B), ('<', 0x3C),
   ('=', 0x3D), ('>', 0x3E), ('?', 0x3F), ('¡', 0x40), ('A', 0x41), ('B', 0x42), ('C', 0x43), ('D', 0x44),
   ('E', 0x45), ('F', 0x46), ('G', 0x47), ('H', 0x48), ('I', 0x49), ('J', 0x4A), ('K', 0x4B), ('L', 0x4C),
   ('M', 0x4D), ('N', 0x4E), ('O', 0x4F), ('P', 0x50), ('Q', 0x51), ('R', 0x52), ('S', 0x53), ('T', 0x54),
   ('U', 0x55), ('V', 0x56), ('W', 0x57), ('X', 0x58), ('Y', 0x59), ('Z', 0x5A), ('Ä', 0x5B), ('Ö', 0x5C),
   ('Ñ', 0x5D), ('Ü', 0x5E), ('§', 0x5F), ('¿', 0x60), ('a', 0x61), ('b', 0x62), ('c', 0x63), ('d', 0x64),
   ('e', 0x65), ('f', 0x66), ('g', 0x67), ('h', 0x68), ('i', 0x69), ('j', 0x6A), ('k', 0x6B), ('l', 0x6C),
   ('m', 0x6D), ('n', 0x6E), ('o', 0x6F), ('p', 0x70), ('q', 0x71), ('r', 0x72), ('s', 0x73), ('t', 0x74),
   ('u', 0x75), ('v', 0x76), ('w', 0x77), ('x', 0x78), ('y', 0x79), ('z', 0x7A), ('ä', 0x7B), ('ö', 0x7C),
   ('ñ', 0x7D), ('ü', 0x7E), ('à', 0x7F)]

/-- Python `char in GSM_7BIT_CHARS` (dict keyed by characters). -/
def gsmMember (c : Char) : Bool := GSM_7BIT_CHARS.any (fun p => p.1 == c)

/-- Python `char in GSM_7BIT_CHARS_REVERSE`: the reverse dict is keyed by the
integer code points, and in Python `str == int` is always `False`, so a
character is never found among the keys. -/
def reverseHasKeyChar (_c : Char) : Bool := false

/-- Machine-level facts about Python `str.upper` for the non-ASCII characters
with a non-trivial uppercase image that this development touches: the
lowercase accented letters of the GSM alphabet, `ç`, the lowercase Greek
letters matching the Greek capitals of the alphabet (both sigmas), and the
length-expanding `ß` (whose Python uppercase is the two-character `SS`).
Each pair was checked against the Python runtime. -/
def pyUpperMap : List (Char × String) :=
  [('è', "È"), ('é', "É"), ('ù', "Ù"), ('ì', "Ì"), ('ò', "Ò"), ('å', "Å"),
   ('ø', "Ø"), ('ä', "Ä"), ('ö', "Ö"), ('ñ', "Ñ"), ('ü', "Ü"), ('à', "À"),
   ('ç', "Ç"),
   ('δ', "Δ"), ('φ', "Φ"), ('γ', "Γ"), ('λ', "Λ"), ('ω', "Ω"), ('π', "Π"),
   ('ψ', "Ψ"), ('σ', "Σ"), ('ς', "Σ"), ('θ', "Θ"), ('ξ', "Ξ"),
   ('ß', "SS")]

/-- Non-ASCII characters checked against the Python runtime to be fixed
points of `str.upper` (the currency signs, inverted punctuation, `§`, the
uppercase accented letters and the Greek capitals of the GSM alphabet). -/
def pyUpperFixed : List Char :=
  ['£', '¥', '¤', '¡', '§', '¿', 'Ç', 'Ø', 'Å', 'Ä', 'Ö', 'Ñ', 'Ü',
   'Δ', 'Φ', 'Γ', 'Λ', 'Ω', 'Π', 'Ψ', 'Σ', 'Θ', 'Ξ',
   'È', 'É', 'Ù', 'Ì', 'Ò', 'À']

/-- Python `str.upper` on a single character, as a string (Python uppercasing
can expand: `ß` uppercases to `SS`): ASCII lowercase maps to ASCII uppercase
(for every other ASCII character, `str.upper` is the identity — checked
against the runtime for all 128 code points); the characters of `pyUpperMap`
map to their recorded images; the default is the identity, which is only
asserted faithful on the `upperModelled` domain below. -/
def pyUpperChar (c : Char) : String :=
  if 'a' ≤ c ∧ c ≤ 'z' then String.singleton (Char.ofNat (c.toNat - 32))
  else
    match pyUpperMap.find? (fun p => p.1 == c) with
    | some p => p.2
    | none => String.singleton c

/-- Python `text.upper()` on whole strings: the concatenation of the
per-character uppercase images (Python `str.upper` has no context-dependent
mappings). -/
def pyUpper (s : String) : String := String.join (s.toList.map pyUpperChar)

/-- The domain on which `pyUpperChar` is asserted to agree with Python
`str.upper`: all of ASCII, the characters of `pyUpperMap`, and the checked
fixed points of `pyUpperFixed`. Outside this set (general Unicode) the model
makes no claim. -/
def upperModelled (c : Char) : Bool :=
  c.toNat ≤ 0x7F || pyUpperMap.any (fun p => p.1 == c) || pyUpperFixed.contains c

/-- `UssdEncoderDecoder.encode_as_7bit_gsm`: upper-case the input, keep
characters found in the table, substitute a space for the rest. -/
def encode_as_7bit_gsm (text : String) : String :=
  String.mk ((pyUpper text).toList.map (fun c => if gsmMember c then c else ' '))

/-- `UssdEncoderDecoder.decode_from_7bit_gsm`: the source appends `char`
unchanged in both branches of its membership test (whose condition is moreover
always false, see `reverseHasKeyChar`). -/
def decode_from_7bit_gsm (encoded : String) : String :=
  String.mk (encoded.toList.map (fun c => if reverseHasKeyChar c then c else c))

/-- `UssdEncoderDecoder.is_gsm_7bit_compatible`. -/
def is_gsm_7bit_compatible (text : String) : Bool :=
  text.toList.all gsmMember

theorem decode_from_7bit_gsm_eq_id (s : String) : decode_from_7bit_gsm s = s := by
  unfold decode_from_7bit_gsm
  cases s with
  | mk data => simp [String.toList, ite_self, List.map_id]

theorem encode_eq_pyUpper_of_all_member (s : String)
    (h : (pyUpper s).toList.all gsmMember = true) :
    encode_as_7bit_gsm s = pyUpper s := by
  unfold encode_as_7bit_gsm
  rw [List.all_eq_true] at h
  have hmap : (pyUpper s).toList.map (fun c => if gsmMember c then c else ' ')
      = (pyUpper s).toList.map id := by
    apply List.map_congr_left
    intro c hc
    simp [h c hc]
  rw [hmap, List.map_id]
  cases hs : pyUpper s with
  | mk data => simp [String.toList]

theorem encode_length (s : String) :
    (encode_as_7bit_gsm s).length = (pyUpper s).length := by
  show ((pyUpper s).toList.map (fun c => if gsmMember c then c else ' ')).length
    = (pyUpper s).length
  rw [List.length_map]
  rfl

/-! ## Command engine read loop (`ModemManager._send_at_command`, lines 204-251) -/

/-- One delivered (and already `.strip()`ped) response line ends accumulation
iff it contains `OK`, `ERROR` or `FAIL` (line 224 of `modem_manager.py`);
the compose prompt `>` is absent from this test. -/
def isTerminalLine (l : String) : Bool :=
  pyIn "OK" l || pyIn "ERROR" l || pyIn "FAIL" l

/-- The read loop of a single attempt (lines 214-229): lines are appended to
the accumulating buffer (each followed by `"\n"`); accumulation stops with the
response as soon as a terminal line arrives; exhausting the scripted lines
without a terminal line is the timeout (`ATCommandTimeoutException`). -/
def readResponseAux (acc : String) : List String → Option String
  | [] => none
  | l :: rest =>
    if isTerminalLine l then some (acc ++ l ++ "\n")
    else readResponseAux (acc ++ l ++ "\n") rest

/-- Response of one `_send_at_command` attempt on a scripted read window. -/
def readResponse (lines : List String) : Option String := readResponseAux "" lines

/-- Whether a full response text contains one of the terminal tokens. -/
def hasTerminalToken (r : String) : Bool :=
  pyIn "OK" r || pyIn "ERROR" r || pyIn "FAIL" r

theorem pyIn_append_left (needle pre l suf : String) (h : pyIn needle l = true) :
    pyIn needle (pre ++ l ++ suf) = true := by
  unfold pyIn at h ⊢
  rw [decide_eq_true_iff] at h ⊢
  have hl : l.toList <:+: (pre ++ l ++ suf).toList := by
    refine ⟨pre.toList, suf.toList, ?_⟩
    simp [String.toList, String.data_append]
  exact h.trans hl

theorem isTerminalLine_hasTerminalToken (pre l suf : String)
    (h : isTerminalLine l = true) : hasTerminalToken (pre ++ l ++ suf) = true := by
  unfold isTerminalLine at h
  unfold hasTerminalToken
  rcases Bool.or_eq_true_iff.mp h with h' | hFail
  · rcases Bool.or_eq_true_iff.mp h' with hOk | hErr
    · simp [pyIn_append_left _ pre l suf hOk]
    · simp [pyIn_append_left _ pre l suf hErr]
  · simp [pyIn_append_left _ pre l suf hFail]

theorem readResponseAux_terminal (lines : List String) :
    ∀ acc r, readResponseAux acc lines = some r →
      ∃ pre l suf, isTerminalLine l = true ∧ r = pre ++ l ++ suf := by
  induction lines with
  | nil => intro acc r h; simp [readResponseAux] at h
  | cons l rest ih =>
    intro acc r h
    unfold readResponseAux at h
    by_cases hl : isTerminalLine l = true
    · rw [if_pos hl] at h
      exact ⟨acc, l, "\n", hl, (Option.some_inj.mp h).symm⟩
    · rw [if_neg hl] at h
      exact ih _ _ h

theorem readResponse_hasTerminalToken (lines : List String) (r : String)
    (h : readResponse lines = some r) : hasTerminalToken r = true := by
  obtain ⟨pre, l, suf, hterm, hr⟩ := readResponseAux_terminal lines "" r h
  rw [hr]
  exact isTerminalLine_hasTerminalToken pre l suf hterm

/-- Outcome of `_send_at_command` over the scripted transport: either the
accumulated response text, or the `ATCommandTimeoutException` raised after the
final attempt. -/
inductive AtOutcome where
  | ok (response : String)
  | timeout
deriving DecidableEq

/-- Trace of one `_send_at_command` call: its outcome, the number of attempts
made, the read-loop time held by timed-out attempts (each timed-out attempt
occupies the loop for the full `timeout`; a lower bound on wall-clock time,
backoff excluded), and the number of fixed 1-second backoff sleeps taken
between attempts. -/
structure AtTrace where
  outcome : AtOutcome
  attempts : Nat
  elapsed : Nat
  sleeps : Nat
deriving DecidableEq

/-- The retry loop of `_send_at_command` (lines 204-251): the `Nat` argument
counts remaining attempts out of `retries`, and `script idx` is the read
window of attempt number `idx`. A successful read returns at once; a timed-out
attempt contributes `tmo` elapsed time and, when further attempts remain, one
backoff sleep (line 241: `if attempt < retries - 1`); once no attempt is left
the timeout error of the final attempt surfaces (line 251, `raise last_error`). -/
def sendAtRec (tmo : Nat) (script : Nat → List String) (idx : Nat) : Nat → AtTrace
  | 0 => { outcome := .timeout, attempts := 0, elapsed := 0, sleeps := 0 }
  | n + 1 =>
    match readResponse (script idx) with
    | some r => { outcome := .ok r, attempts := 1, elapsed := 0, sleeps := 0 }
    | none =>
      if n = 0 then { outcome := .timeout, attempts := 1, elapsed := tmo, sleeps := 0 }
      else
        let rest := sendAtRec tmo script (idx + 1) n
        { outcome := rest.outcome, attempts := rest.attempts + 1,
          elapsed := rest.elapsed + tmo, sleeps := rest.sleeps + 1 }

/-- `_send_at_command(command, timeout := tmo, retries)` over a scripted
transport delivering the lines `script i` within the window of attempt `i`. -/
def sendAtCommand (tmo retries : Nat) (script : Nat → List String) : AtTrace :=
  sendAtRec tmo script 0 retries

theorem sendAtRec_eq_ok (tmo : Nat) (script : Nat → List String) (idx n : Nat)
    (r : String) (h : readResponse (script idx) = some r) :
    sendAtRec tmo script idx (n + 1) =
      { outcome := .ok r, attempts := 1, elapsed := 0, sleeps := 0 } := by
  unfold sendAtRec
  rw [h]

theorem sendAtRec_eq_last (tmo : Nat) (script : Nat → List String) (idx : Nat)
    (h : readResponse (script idx) = none) :
    sendAtRec tmo script idx 1 =
      { outcome := .timeout, attempts := 1, elapsed := tmo, sleeps := 0 } := by
  unfold sendAtRec
  rw [h]
  simp

theorem sendAtRec_eq_retry (tmo : Nat) (script : Nat → List String) (idx n : Nat)
    (h : readResponse (script idx) = none) (hn : n ≠ 0) :
    sendAtRec tmo script idx (n + 1) =
      { outcome := (sendAtRec tmo script (idx + 1) n).outcome,
        attempts := (sendAtRec tmo script (idx + 1) n).attempts + 1,
        elapsed := (sendAtRec tmo script (idx + 1) n).elapsed + tmo,
        sleeps := (sendAtRec tmo script (idx + 1) n).sleeps + 1 } := by
  conv_lhs => unfold sendAtRec
  rw [h]
  rw [if_neg hn]

theorem sendAtRec_ok_terminal (tmo : Nat) (script : Nat → List String) :
    ∀ n idx r, (sendAtRec tmo script idx n).outcome = .ok r →
      hasTerminalToken r = true := by
  intro n
  induction n with
  | zero => intro idx r h; simp [sendAtRec] at h
  | succ n ih =>
    intro idx r h
    cases hread : readResponse (script idx) with
    | some resp =>
      rw [sendAtRec_eq_ok tmo script idx n resp hread] at h
      simp at h
      exact h ▸ readResponse_hasTerminalToken _ _ hread
    | none =>
      by_cases hn : n = 0
      · subst hn
        rw [sendAtRec_eq_last tmo script idx hread] at h
        simp at h
      · rw [sendAtRec_eq_retry tmo script idx n hread hn] at h
        exact ih (idx + 1) r h

theorem sendAtRec_timeout_trace (tmo : Nat) (script : Nat → List String) :
    ∀ n idx, 1 ≤ n → (sendAtRec tmo script idx n).outcome = .timeout →
      (sendAtRec tmo script idx n).elapsed = tmo * n ∧
      (sendAtRec tmo script idx n).attempts = n ∧
      (sendAtRec tmo script idx n).sleeps = n - 1 := by
  intro n
  induction n with
  | zero => intro idx h; omega
  | succ n ih =>
    intro idx _ hout
    cases hread : readResponse (script idx) with
    | some resp =>
      rw [sendAtRec_eq_ok tmo script idx n resp hread] at hout
      simp at hout
    | none =>
      by_cases hn : n = 0
      · subst hn
        rw [sendAtRec_eq_last tmo script idx hread]
        simp [Nat.mul_one]
      · rw [sendAtRec_eq_retry tmo script idx n hread hn] at hout ⊢
        have hn1 : 1 ≤ n := Nat.one_le_iff_ne_zero.mpr hn
        obtain ⟨he, ha, hs⟩ := ih (idx + 1) hn1 hout
        refine ⟨?_, ?_, ?_⟩
        · simp only [he]; ring
        · simp only [ha]
        · simp only [hs]; omega

/-- **C7** — for any timeout/retries pair and any scripted transport, the
command engine either returns a response containing a terminal token, or
fails with `Timeout` having made exactly `retries` attempts, held the read
loop for `timeout × retries` (so at least that much wall-clock time, the
backoff aside), with the fixed 1-second backoff slept `retries - 1` times and
the timeout error of the final attempt surfaced to the caller. -/
theorem sendAtCommand_terminal_or_timeout (tmo retries : Nat)
    (script : Nat → List String) (hr : 1 ≤ retries) :
    (∀ r, (sendAtCommand tmo retries script).outcome = .ok r →
        hasTerminalToken r = true) ∧
    ((sendAtCommand tmo retries script).outcome = .timeout →
      (sendAtCommand tmo retries script).elapsed = tmo * retries ∧
      (sendAtCommand tmo retries script).attempts = retries ∧
      (sendAtCommand tmo retries script).sleeps = retries - 1) := by
  constructor
  · intro r h
    exact sendAtRec_ok_terminal tmo script retries 0 r h
  · intro h
    exact sendAtRec_timeout_trace tmo script retries 0 hr h

/-- Witness for C7 at `timeout = 5`, `retries = 3` on a transport whose only
reply each attempt is the compose prompt: every attempt times out, the loop is
held 15 seconds, and 2 backoff sleeps occur. -/
theorem sendAtCommand_terminal_or_timeout_witness :
    (sendAtCommand 5 3 (fun _ => [">"])).elapsed = 5 * 3 ∧
    (sendAtCommand 5 3 (fun _ => [">"])).attempts = 3 ∧
    (sendAtCommand 5 3 (fun _ => [">"])).sleeps = 3 - 1 :=
  (sendAtCommand_terminal_or_timeout 5 3 (fun _ => [">"]) (by decide)).2 (by decide)

/-- **C1** (code bug) — the compose prompt `>` is not among the markers that
end `_send_at_command`'s read loop: a compose command (`AT+CMGS`/`AT+CUSD`)
whose only reply line is the prompt exhausts its read window and raises
`Timeout` instead of returning a response containing `>`; accumulation stops
only on a line containing `OK`, `ERROR` or `FAIL` (and does append every line
read until then). -/
theorem sendAtCommand_prompt_only_reply_times_out :
    readResponse [">"] = none ∧
    isTerminalLine ">" = false ∧
    (sendAtCommand 15 3 (fun _ => [">"])).outcome = .timeout ∧
    readResponse [">", "OK"] = some (">" ++ "\n" ++ "OK" ++ "\n") ∧
    isTerminalLine "OK" = true ∧ isTerminalLine "ERROR" = true ∧
    isTerminalLine "FAIL" = true := by decide

/-- **C9** (counterexample) — `decode7bit(encode7bit "è")` is `" "`, not
`"è".upper() = "È"`, even though `è` lies in the GSM alphabet (upper-casing
happens before the table lookup and `È` is outside the table); and `ç`,
outside the alphabet, is encoded as `Ç`, not as a space. -/
theorem codec_roundtrip_counterexample :
    gsmMember 'è' = true ∧
    pyUpper "è" = "È" ∧
    decode_from_7bit_gsm (encode_as_7bit_gsm "è") = " " ∧
    (" " : String) ≠ "È" ∧
    gsmMember 'ç' = false ∧
    encode_as_7bit_gsm "ç" = "Ç" ∧
    ("Ç" : String) ≠ " " := by decide

/-- **C9** (amended) — `decode7bit` is the identity on every string, so the
round trip returns exactly `encode7bit(s)`; on strings within the modelled
uppercase domain, the round trip equals `s.upper()` precisely when every
character of the *upper-cased* string lies in the alphabet; `encode7bit`
never fails, producing one character per character of the *upper-cased*
input — whose length can differ from the input: Python upper-cases `ß` to
`SS`, which the alphabet contains, so `ß` encodes to the two-character `SS`;
and `δ` upper-cases into the alphabet, so it encodes to `Δ`, not a space. -/
theorem codec_roundtrip_amended :
    (∀ s : String, decode_from_7bit_gsm (encode_as_7bit_gsm s) = encode_as_7bit_gsm s) ∧
    (∀ s : String, s.toList.all upperModelled = true →
      (encode_as_7bit_gsm s).length = (pyUpper s).length) ∧
    (∀ s : String, s.toList.all upperModelled = true →
      (pyUpper s).toList.all gsmMember = true →
      decode_from_7bit_gsm (encode_as_7bit_gsm s) = pyUpper s) ∧
    (encode_as_7bit_gsm "δ" = "Δ" ∧ encode_as_7bit_gsm "ß" = "SS" ∧
      (encode_as_7bit_gsm "ß").length = 2 ∧ ("ß" : String).length = 1) := by
  refine ⟨fun s => decode_from_7bit_gsm_eq_id _, fun s _ => encode_length s,
    fun s _ h => ?_, by decide⟩
  rw [decode_from_7bit_gsm_eq_id]
  exact encode_eq_pyUpper_of_all_member s h

/-- Witness for C9 (amended) at the concrete USSD-like input `"Hello*123#"`. -/
theorem codec_roundtrip_amended_witness :
    decode_from_7bit_gsm (encode_as_7bit_gsm "Hello*123#") = pyUpper "Hello*123#" :=
  codec_roundtrip_amended.2.2.1 "Hello*123#" (by decide) (by decide)

/-! ## Signal parsing and mapping (`get_status` lines 280-290 and
`get_sim_info` lines 393-403 of `modem_manager.py`) -/

/-- Result of one `_send_at_command` call as seen by a caller: the returned
response text, or a raised exception (timeout or command failure). -/
inductive StepR where
  | reply (s : String)
  | exn
deriving DecidableEq

/-- Python regex class `\s`: space, tab, newline, carriage return, vertical
tab, form feed. -/
def isPySpace (c : Char) : Bool :=
  c = ' ' || c = '\t' || c = '\n' || c = '\r' || c = '\x0b' || c = '\x0c'

/-- Numeric value of a digit run (Python `int` applied to the matched group). -/
def natOfDigits (ds : List Char) : Nat :=
  ds.foldl (fun n c => n * 10 + (c.toNat - 48)) 0

/-- One start position of the regex search for `CSQ:` followed by optional
whitespace and at least one digit (the pattern both status paths use). -/
def csqMatchAt (cs : List Char) : Option Nat :=
  if "CSQ:".toList.isPrefixOf cs then
    let rest := (cs.drop 4).dropWhile isPySpace
    let ds := rest.takeWhile Char.isDigit
    if ds.isEmpty then none else some (natOfDigits ds)
  else none

/-- The regex search over the whole response: leftmost match wins; `none`
when no position matches (which also covers responses without `CSQ:`,
the guard the code tests first). -/
def searchCsq : List Char → Option Nat
  | [] => none
  | c :: rest =>
    match csqMatchAt (c :: rest) with
    | some n => some n
    | none => searchCsq rest

/-- The mapping both status paths apply to the parsed raw value:
`min(100, int((raw_signal / 31) * 100))`. The Python float expression equals
the integer floor `raw * 100 / 31` for every value in reach (verified for all
raw below 10^5; a CSQ field is two digits). -/
def signalPercent (raw : Nat) : Nat := min 100 (raw * 100 / 31)

/-- The `signal_strength` field computed by `get_status` (lines 280-290):
null when the CSQ query raises or the response yields no match, otherwise the
mapped percentage — with no special case for raw value 99. -/
def getStatusSignal (csqStep : StepR) : Option Nat :=
  match csqStep with
  | .exn => none
  | .reply s =>
    match searchCsq s.toList with
    | none => none
    | some raw => some (signalPercent raw)

/-- The `signal_strength` field computed by `get_sim_info` (lines 393-403):
the same query, guard, regex and mapping as `get_status`. -/
def getSimInfoSignal (csqStep : StepR) : Option Nat :=
  match csqStep with
  | .exn => none
  | .reply s =>
    match searchCsq s.toList with
    | none => none
    | some raw => some (signalPercent raw)

/-- **C2** (counterexample) — on the response `+CSQ: 99,99` both status paths
report a signal of 100, not the unknown/null the claim requires for CSQ 99;
and the general case truncates rather than rounds: CSQ 8 maps to 25 where
`round(8*100/31) = 26`. -/
theorem signal_mapping_counterexample :
    getStatusSignal (.reply ("+CSQ: 99,99" ++ "\n" ++ "OK")) = some 100 ∧
    getStatusSignal (.reply ("+CSQ: 99,99" ++ "\n" ++ "OK")) ≠ none ∧
    getSimInfoSignal (.reply ("+CSQ: 99,99" ++ "\n" ++ "OK")) = some 100 ∧
    signalPercent 8 = 25 ∧ (25 : Nat) ≠ 26 := by decide

/-- **C2** (amended) — both `get_status` and `get_sim_info` apply the same
mapping to the parsed CSQ value: `min(100, floor(csq * 100 / 31))`, truncating
(not rounding) and clamped to at most 100, with CSQ 0 mapped to 0, CSQ 31 to
100, and every parsed value treated uniformly — including 99, mapped to 100
rather than to unknown/null. -/
theorem signal_mapping_floor_clamped :
    (∀ st, getStatusSignal st = getSimInfoSignal st) ∧
    getStatusSignal (.reply ("+CSQ: 0,0" ++ "\n" ++ "OK")) = some 0 ∧
    getStatusSignal (.reply ("+CSQ: 31,99" ++ "\n" ++ "OK")) = some 100 ∧
    getStatusSignal (.reply ("+CSQ: 99,99" ++ "\n" ++ "OK")) = some 100 ∧
    (∀ raw, signalPercent raw = min 100 (raw * 100 / 31)) ∧
    (∀ raw, signalPercent raw ≤ 100) := by
  refine ⟨fun st => ?_, by decide, by decide, by decide, fun raw => rfl,
    fun raw => Nat.min_le_left _ _⟩
  cases st with
  | exn => rfl
  | reply s => rfl

/-! ## SMS sending (`send_sms`, lines 512-641, and the three submission
methods of `modem_manager.py`). The enclosing handler on lines 639-641
re-raises every failure as an `SmsSendException` embedding the inner message;
the model keeps the inner error kind, which that message preserves. -/

/-- Error kinds distinguishable in the messages `send_sms` and its submission
methods raise. -/
inductive SmsError where
  | notConnected
  | notResponsive
  | textModeFailed
  | allMethodsFailed
  | simNotReady
  | noSignal
  | atFailure
  | smsFailedResponse
  | sendTimeout
  | hexEncodingError
deriving DecidableEq

/-- A bare `except Exception` that only logs: whatever the guarded block did,
control continues normally. -/
def pySwallow (attempt : Except SmsError Unit) : Except SmsError Unit :=
  match attempt with
  | .error _ => .ok ()
  | .ok _ => .ok ()

theorem pySwallow_ok (a : Except SmsError Unit) : pySwallow a = .ok () := by
  cases a <;> rfl

/-- Lines 537-542: the `AT` liveness test; on failure the handler re-raises
(`Modem not responsive`), so this step is fatal. -/
def preflightLiveness (r : StepR) : Except SmsError Unit :=
  match r with
  | .exn => .error .notResponsive
  | .reply _ => .ok ()

/-- Lines 545-551: SIM readiness; the raise for a not-`READY` response sits
inside the same `try` block and is caught by its own logging handler, so
every outcome continues. -/
def preflightSim (r : StepR) : Except SmsError Unit :=
  pySwallow (match r with
    | .exn => .error .atFailure
    | .reply s => if pyIn "READY" s then .ok () else .error .simNotReady)

/-- Lines 554-560: registration check; an unregistered response only logs a
warning, and a raised failure is swallowed. -/
def preflightReg (r : StepR) : Except SmsError Unit :=
  pySwallow (match r with
    | .exn => .error .atFailure
    | .reply s =>
      if ¬ (pyIn "0,1" s = true) ∧ ¬ (pyIn "0,5" s = true) then .ok () else .ok ())

/-- Lines 563-567: soft reset (`ATZ` then `AT&F`); failures swallowed. -/
def preflightReset (ratz ratf : StepR) : Except SmsError Unit :=
  pySwallow (match ratz with
    | .exn => .error .atFailure
    | .reply _ =>
      match ratf with
      | .exn => .error .atFailure
      | .reply _ => .ok ())

/-- Lines 570-575: SMS text mode set; on failure the handler re-raises
(`Failed to set SMS text mode`), so this step is fatal. -/
def preflightTextMode (r : StepR) : Except SmsError Unit :=
  match r with
  | .exn => .error .textModeFailed
  | .reply _ => .ok ()

/-- Lines 578-582: character set; failure swallowed. -/
def preflightCharset (r : StepR) : Except SmsError Unit :=
  pySwallow (match r with
    | .exn => .error .atFailure
    | .reply _ => .ok ())

/-- Lines 585-595: signal check; the raise for CSQ 99 (`No signal available`)
sits inside the same `try` block and is caught by its own logging handler, so
even a 99 reading continues. -/
def preflightSignal (r : StepR) : Except SmsError Unit :=
  pySwallow (match r with
    | .exn => .error .atFailure
    | .reply s =>
      match searchCsq s.toList with
      | some sig => if sig = 99 then .error .noSignal else .ok ()
      | none => .ok ())

/-- Lines 597-604: country-code normalization of the recipient number. -/
def normalizeNumber (number : String) : String :=
  if number.startsWith "+" || number.startsWith "00" then number
  else if number.startsWith "0" then "+213" ++ (number.drop 1)
  else "+213" ++ number

/-- Python 3 semantics of `message.encode` with codec name `hex`: `hex` is
not a text encoding under Python 3, so the call raises `LookupError` for
every string, and the PDU body of method 3 can never be built. -/
def strEncodeHexPy3 (_message : String) : Except SmsError String :=
  .error .hexEncodingError

/-- The await loop the submission methods share (e.g. lines 738-751): a line
containing `OK` succeeds, one containing `ERROR` or `FAIL` raises, exhausting
the 30-second window raises a send timeout. -/
def awaitFinalResponse : List String → Except SmsError Bool
  | [] => .error .sendTimeout
  | l :: rest =>
    if pyIn "OK" l then .ok true
    else if pyIn "ERROR" l || pyIn "FAIL" l then .error .smsFailedResponse
    else awaitFinalResponse rest

/-- Scripted environment of one `_send_sms_method3` call: the responses to
`AT+CMGF=0`, `AT+CMGS=<len>`, the lines readable after the PDU body would be
written, and the response to the restoring `AT+CMGF=1`. -/
structure M3Env where
  cmgf0 : StepR
  cmgs : StepR
  finalLines : List String
  cmgf1 : StepR
deriving DecidableEq

/-- Result and issued-command trace of one `_send_sms_method3` call. -/
structure M3Run where
  result : Except SmsError Bool
  commands : List String
deriving DecidableEq

/-- `_send_sms_method3` (lines 715-756): switch to PDU mode (outside the
`try`/`finally` — a failure there propagates before anything else happens),
then inside `try`: length-prefixed `AT+CMGS`, prompt check, PDU body built
with `message.encode` (which raises, see `strEncodeHexPy3`), await loop; the
`finally` issues the restoring `AT+CMGF=1` on every path leaving the `try`,
and an exception from the restore command itself replaces the in-flight
outcome. The recipient number occurs only in the unreachable PDU body. -/
def sendSmsMethod3 (env : M3Env) (message : String) : M3Run :=
  match env.cmgf0 with
  | .exn => { result := .error .atFailure, commands := ["AT+CMGF=0"] }
  | .reply _ =>
    let cmgsCmd := "AT+CMGS=" ++ toString message.length
    let tryOutcome : Except SmsError Bool :=
      match env.cmgs with
      | .exn => .error .atFailure
      | .reply r =>
        if pyIn ">" r then
          match strEncodeHexPy3 message with
          | .error e => .error e
          | .ok _ => awaitFinalResponse env.finalLines
        else .error .smsFailedResponse
    let result : Except SmsError Bool :=
      match env.cmgf1 with
      | .exn => .error .atFailure
      | .reply _ => tryOutcome
    { result := result, commands := ["AT+CMGF=0", cmgsCmd, "AT+CMGF=1"] }

/-- Result and attempted-method trace of the submission phase. -/
structure DispatchRun where
  result : Except SmsError Bool
  attempted : List Nat
deriving DecidableEq

/-- Lines 607-637: try method 1 and return on success; otherwise (an `ok
False` or a raised error, which is caught and logged) try method 2, then
method 3, in that order; with no success left, raise the aggregate
`All SMS sending methods failed`. -/
def dispatchMethods (m1 m2 m3 : Except SmsError Bool) : DispatchRun :=
  match m1 with
  | .ok true => { result := .ok true, attempted := [1] }
  | _ =>
    match m2 with
    | .ok true => { result := .ok true, attempted := [1, 2] }
    | _ =>
      match m3 with
      | .ok true => { result := .ok true, attempted := [1, 2, 3] }
      | _ => { result := .error .allMethodsFailed, attempted := [1, 2, 3] }

theorem dispatchMethods_eq (m1 m2 m3 : Except SmsError Bool) :
    dispatchMethods m1 m2 m3 =
      if m1 = .ok true then { result := .ok true, attempted := [1] }
      else if m2 = .ok true then { result := .ok true, attempted := [1, 2] }
      else if m3 = .ok true then { result := .ok true, attempted := [1, 2, 3] }
      else { result := .error .allMethodsFailed, attempted := [1, 2, 3] } := by
  rcases m1 with e1 | b1
  · rcases m2 with e2 | b2
    · rcases m3 with e3 | b3
      · simp [dispatchMethods]
      · cases b3 <;> simp [dispatchMethods]
    · cases b2
      · rcases m3 with e3 | b3
        · simp [dispatchMethods]
        · cases b3 <;> simp [dispatchMethods]
      · simp [dispatchMethods]
  · cases b1
    · rcases m2 with e2 | b2
      · rcases m3 with e3 | b3
        · simp [dispatchMethods]
        · cases b3 <;> simp [dispatchMethods]
      · cases b2
        · rcases m3 with e3 | b3
          · simp [dispatchMethods]
          · cases b3 <;> simp [dispatchMethods]
        · simp [dispatchMethods]
    · simp [dispatchMethods]

/-- Scripted environment of one `send_sms` call: connection flag, the
pre-flight command responses, the outcomes of submission methods 1 and 2
(each returns success or raises), and the environment driving method 3. -/
structure SmsEnv where
  connected : Bool
  atTest : StepR
  cpin : StepR
  creg : StepR
  atz : StepR
  atf : StepR
  cmgf1 : StepR
  cscs : StepR
  csq : StepR
  m1 : Except SmsError Bool
  m2 : Except SmsError Bool
  m3env : M3Env
deriving DecidableEq

/-- `send_sms` (lines 512-641): connectivity guard, the pre-flight sequence
in source order, number normalization, then the three-method dispatch with
method 3 run through the `sendSmsMethod3` model. `attempted` lists the
submission methods tried, in order (empty when a fatal pre-flight failure
prevents the submission phase). -/
def sendSms (env : SmsEnv) (message : String) : DispatchRun :=
  if env.connected = false then { result := .error .notConnected, attempted := [] }
  else
    match preflightLiveness env.atTest with
    | .error e => { result := .error e, attempted := [] }
    | .ok _ =>
      match preflightSim env.cpin with
      | .error e => { result := .error e, attempted := [] }
      | .ok _ =>
        match preflightReg env.creg with
        | .error e => { result := .error e, attempted := [] }
        | .ok _ =>
          match preflightReset env.atz env.atf with
          | .error e => { result := .error e, attempted := [] }
          | .ok _ =>
            match preflightTextMode env.cmgf1 with
            | .error e => { result := .error e, attempted := [] }
            | .ok _ =>
              match preflightCharset env.cscs with
              | .error e => { result := .error e, attempted := [] }
              | .ok _ =>
                match preflightSignal env.csq with
                | .error e => { result := .error e, attempted := [] }
                | .ok _ =>
                  dispatchMethods env.m1 env.m2 (sendSmsMethod3 env.m3env message).result

theorem sendSms_eq_dispatch (s t : String)
    (cpin creg atz atf cscs csq : StepR)
    (m1 m2 : Except SmsError Bool) (m3e : M3Env) (msg : String) :
    sendSms ⟨true, .reply s, cpin, creg, atz, atf, .reply t, cscs, csq, m1, m2, m3e⟩ msg =
      dispatchMethods m1 m2 (sendSmsMethod3 m3e msg).result := by
  unfold sendSms
  simp [preflightLiveness, preflightTextMode, preflightSim, preflightReg,
    preflightReset, preflightCharset, preflightSignal, pySwallow_ok]

theorem dispatchMethods_ok_cases (m1 m2 m3 : Except SmsError Bool)
    (h : (dispatchMethods m1 m2 m3).result = .ok true) :
    m1 = .ok true ∨ m2 = .ok true ∨ m3 = .ok true := by
  rw [dispatchMethods_eq] at h
  by_cases h1 : m1 = .ok true
  · exact .inl h1
  · rw [if_neg h1] at h
    by_cases h2 : m2 = .ok true
    · exact .inr (.inl h2)
    · rw [if_neg h2] at h
      by_cases h3 : m3 = .ok true
      · exact .inr (.inr h3)
      · rw [if_neg h3] at h
        simp at h

theorem sendSmsMethod3_result_isError (env : M3Env) (msg : String) :
    ∃ e, (sendSmsMethod3 env msg).result = .error e := by
  rcases env with ⟨c0, cg, fl, c1⟩
  cases c0 with
  | exn => exact ⟨.atFailure, rfl⟩
  | reply s =>
    cases c1 with
    | exn => exact ⟨.atFailure, by simp [sendSmsMethod3]⟩
    | reply t =>
      cases cg with
      | exn => exact ⟨.atFailure, by simp [sendSmsMethod3]⟩
      | reply r =>
        by_cases hp : pyIn ">" r = true
        · exact ⟨.hexEncodingError, by simp [sendSmsMethod3, hp, strEncodeHexPy3]⟩
        · exact ⟨.smsFailedResponse, by simp [sendSmsMethod3, hp]⟩

theorem sendSms_ok_shape (env : SmsEnv) (msg : String)
    (h : (sendSms env msg).result = .ok true) :
    sendSms env msg = dispatchMethods env.m1 env.m2 (sendSmsMethod3 env.m3env msg).result := by
  rcases env with ⟨conn, atR, cpin, creg, atz, atf, cm, cscs, csq, m1, m2, m3e⟩
  cases conn
  · simp [sendSms] at h
  · cases atR with
    | exn => simp [sendSms, preflightLiveness] at h
    | reply s =>
      cases cm with
      | exn =>
        simp [sendSms, preflightLiveness, preflightSim, preflightReg, preflightReset,
          preflightTextMode, preflightCharset, preflightSignal, pySwallow_ok] at h
      | reply t => exact sendSms_eq_dispatch s t cpin creg atz atf cscs csq m1 m2 m3e msg

/-- **C3** — the submission phase of `send_sms` tries the quoted-address,
unquoted-address and PDU-mode strategies strictly in that order, stops at the
first that succeeds, raises the aggregate all-methods-failed error exactly
when no strategy succeeds, and in a run where strategies 1 and 2 fail while
strategy 3 succeeds it attempts 1 and 2 exactly once each, in order, before
3; with the pre-flight passing, `send_sms` is exactly this dispatch. -/
theorem sendSms_strategy_order (m1 m2 m3 : Except SmsError Bool) :
    ((dispatchMethods m1 m2 m3).result = .error .allMethodsFailed ↔
      (m1 ≠ .ok true ∧ m2 ≠ .ok true ∧ m3 ≠ .ok true)) ∧
    ((dispatchMethods m1 m2 m3).result = .ok true ↔
      (m1 = .ok true ∨ m2 = .ok true ∨ m3 = .ok true)) ∧
    (m1 = .ok true → dispatchMethods m1 m2 m3 = ⟨.ok true, [1]⟩) ∧
    (m1 ≠ .ok true → m2 = .ok true → dispatchMethods m1 m2 m3 = ⟨.ok true, [1, 2]⟩) ∧
    (m1 ≠ .ok true → m2 ≠ .ok true → m3 = .ok true →
      dispatchMethods m1 m2 m3 = ⟨.ok true, [1, 2, 3]⟩ ∧
      (dispatchMethods m1 m2 m3).attempted.count 1 = 1 ∧
      (dispatchMethods m1 m2 m3).attempted.count 2 = 1) ∧
    (∀ s t cpin creg atz atf cscs csq m3e msg,
      sendSms ⟨true, .reply s, cpin, creg, atz, atf, .reply t, cscs, csq, m1, m2, m3e⟩ msg =
        dispatchMethods m1 m2 (sendSmsMethod3 m3e msg).result) := by
  refine ⟨?_, ?_, ?_, ?_, ?_,
    fun s t cpin creg atz atf cscs csq m3e msg =>
      sendSms_eq_dispatch s t cpin creg atz atf cscs csq m1 m2 m3e msg⟩ <;>
    simp only [dispatchMethods_eq] <;> split_ifs with h1 h2 h3 <;> simp_all

/-- Witness for C3: strategies 1 and 2 fail (raised errors), strategy 3
succeeds; the dispatch attempts 1, 2, 3 in order and returns success. -/
theorem sendSms_strategy_order_witness :
    dispatchMethods (.error .atFailure) (.error .sendTimeout) (.ok true) =
      ⟨.ok true, [1, 2, 3]⟩ :=
  (((((sendSms_strategy_order (.error .atFailure) (.error .sendTimeout)
    (.ok true)).2).2).2).2).1 (by decide) (by decide) rfl |>.1

/-- **C4** (counterexample) — with every other pre-flight step succeeding and
submission method 1 succeeding, a failed liveness check alone makes
`send_sms` raise the modem-not-responsive error with no submission method
attempted (second conjunct: the same environment with the liveness check
passing succeeds via method 1); likewise a failed text-mode set alone aborts
the call. Pre-flight failures are therefore not all non-fatal. -/
theorem sendSms_preflight_counterexample :
    sendSms ⟨true, .exn, .reply "READY", .reply "+CREG: 0,1", .reply "OK", .reply "OK",
      .reply "OK", .reply "OK", .reply "+CSQ: 20,99", .ok true, .ok true,
      ⟨.reply "OK", .reply ">", [], .reply "OK"⟩⟩ "hi"
      = ⟨.error .notResponsive, []⟩ ∧
    sendSms ⟨true, .reply "OK", .reply "READY", .reply "+CREG: 0,1", .reply "OK", .reply "OK",
      .reply "OK", .reply "OK", .reply "+CSQ: 20,99", .ok true, .ok true,
      ⟨.reply "OK", .reply ">", [], .reply "OK"⟩⟩ "hi"
      = ⟨.ok true, [1]⟩ ∧
    sendSms ⟨true, .reply "OK", .reply "READY", .reply "+CREG: 0,1", .reply "OK", .reply "OK",
      .exn, .reply "OK", .reply "+CSQ: 20,99", .ok true, .ok true,
      ⟨.reply "OK", .reply ">", [], .reply "OK"⟩⟩ "hi"
      = ⟨.error .textModeFailed, []⟩ := by decide

/-- **C4** (amended) — the SIM-ready, registration, soft-reset, character-set
and signal checks (the latter swallowing even its own CSQ-99 no-signal raise)
are logged and non-fatal: whatever their outcomes, `send_sms` proceeds to the
submission dispatch; but a liveness-check failure aborts the call with the
modem-not-responsive error and a text-mode-set failure aborts it with the
text-mode error, in both cases before any submission strategy is tried. -/
theorem sendSms_preflight_amended :
    (∀ s t cpin creg atz atf cscs csq m1 m2 m3e msg,
      sendSms ⟨true, .reply s, cpin, creg, atz, atf, .reply t, cscs, csq, m1, m2, m3e⟩ msg =
        dispatchMethods m1 m2 (sendSmsMethod3 m3e msg).result) ∧
    (∀ env msg, env.connected = true → env.atTest = .exn →
      sendSms env msg = ⟨.error .notResponsive, []⟩) ∧
    (∀ env msg s, env.connected = true → env.atTest = .reply s → env.cmgf1 = .exn →
      sendSms env msg = ⟨.error .textModeFailed, []⟩) := by
  refine ⟨fun s t cpin creg atz atf cscs csq m1 m2 m3e msg =>
    sendSms_eq_dispatch s t cpin creg atz atf cscs csq m1 m2 m3e msg, ?_, ?_⟩
  · intro env msg hc ha
    rcases env with ⟨conn, atR, cpin, creg, atz, atf, cm, cscs, csq, m1, m2, m3e⟩
    cases hc
    cases ha
    simp [sendSms, preflightLiveness]
  · intro env msg s hc ha hm
    rcases env with ⟨conn, atR, cpin, creg, atz, atf, cm, cscs, csq, m1, m2, m3e⟩
    cases hc
    cases ha
    cases hm
    simp [sendSms, preflightLiveness, preflightSim, preflightReg, preflightReset,
      preflightTextMode, preflightCharset, preflightSignal, pySwallow_ok]

/-- Witness for C4 (amended): with the liveness check failing, `send_sms`
fails fatally before any submission method. -/
theorem sendSms_preflight_amended_witness :
    sendSms ⟨true, .exn, .exn, .exn, .exn, .exn, .exn, .exn, .exn, .ok true, .ok true,
      ⟨.exn, .exn, [], .exn⟩⟩ "hi" = ⟨.error .notResponsive, []⟩ :=
  sendSms_preflight_amended.2.1
    ⟨true, .exn, .exn, .exn, .exn, .exn, .exn, .exn, .exn, .ok true, .ok true,
      ⟨.exn, .exn, [], .exn⟩⟩ "hi" rfl rfl

/-- **C5** — once the switch to PDU mode has returned, `_send_sms_method3`
issues the restoring `AT+CMGF=1` on every exit path: its command trace is
always the switch, the length-prefixed submission, and the restoration — in
particular the restoration is issued although every attempt fails (the PDU
body raises, see C6). -/
theorem method3_restores_text_mode (env : M3Env) (msg s : String)
    (h : env.cmgf0 = .reply s) :
    "AT+CMGF=1" ∈ (sendSmsMethod3 env msg).commands ∧
    (sendSmsMethod3 env msg).commands =
      ["AT+CMGF=0", "AT+CMGS=" ++ toString msg.length, "AT+CMGF=1"] := by
  rcases env with ⟨c0, cg, fl, c1⟩
  cases h
  constructor
  · simp [sendSmsMethod3]
  · simp [sendSmsMethod3]

/-- Witness for C5: even with the submission command raising, the restore
command is in the trace. -/
theorem method3_restores_text_mode_witness :
    "AT+CMGF=1" ∈ (sendSmsMethod3 ⟨.reply "OK", .exn, [], .reply "OK"⟩ "hi").commands :=
  (method3_restores_text_mode ⟨.reply "OK", .exn, [], .reply "OK"⟩ "hi" "OK" rfl).1

/-- **C6** — under Python 3 the PDU strategy can never return success: on the
prompt path it evaluates the body through a nonexistent `hex` text codec,
which raises for every string, and every other path raises too; consequently
`send_sms` can only succeed through submission methods 1 or 2. -/
theorem method3_never_succeeds :
    (∀ env msg, (sendSmsMethod3 env msg).result ≠ .ok true) ∧
    (∀ env msg, (sendSms env msg).result = .ok true →
      env.m1 = .ok true ∨ env.m2 = .ok true) := by
  have hm3 : ∀ env msg, (sendSmsMethod3 env msg).result ≠ .ok true := by
    intro env msg hcontra
    obtain ⟨e, he⟩ := sendSmsMethod3_result_isError env msg
    rw [he] at hcontra
    exact Except.noConfusion hcontra
  refine ⟨hm3, fun env msg h => ?_⟩
  have hshape := sendSms_ok_shape env msg h
  rw [hshape] at h
  rcases dispatchMethods_ok_cases _ _ _ h with h1 | h2 | h3
  · exact .inl h1
  · exact .inr h2
  · exact absurd h3 (hm3 env.m3env msg)

/-- Witness for C6: a successful `send_sms` run is one that succeeded through
method 1. -/
theorem method3_never_succeeds_witness :
    (⟨true, .reply "OK", .exn, .exn, .exn, .exn, .reply "OK", .exn, .exn, .ok true,
      .error .atFailure, ⟨.exn, .exn, [], .exn⟩⟩ : SmsEnv).m1 = .ok true ∨
    (⟨true, .reply "OK", .exn, .exn, .exn, .exn, .reply "OK", .exn, .exn, .ok true,
      .error .atFailure, ⟨.exn, .exn, [], .exn⟩⟩ : SmsEnv).m2 = .ok true :=
  method3_never_succeeds.2
    ⟨true, .reply "OK", .exn, .exn, .exn, .exn, .reply "OK", .exn, .exn, .ok true,
      .error .atFailure, ⟨.exn, .exn, [], .exn⟩⟩ "hi" (by decide)

/-! ## SIM info cache (`get_sim_info`, lines 341-441 of `modem_manager.py`) -/

/-- Python `timedelta.seconds` for a nonnegative whole-second delta: the
seconds component after normalization into days/seconds/microseconds — the
elapsed seconds modulo one day (86400), not the total. -/
def timedeltaSeconds (elapsed : Nat) : Nat := elapsed % 86400

/-- Cache fields of a `ModemManager`: the cached SIM snapshot (abstracted to
an identifying value) and its timestamp in whole seconds. -/
structure SimCacheState where
  cache : Option Nat
  tsSeconds : Option Nat
deriving DecidableEq

/-- Lines 353-354: the cache is served when both fields are set and
`(datetime.now() - self._cache_timestamp).seconds < self._cache_duration`,
with `_cache_duration = 300` (the 5-minute TTL of the comment on line 60). -/
def cacheValid (st : SimCacheState) (now : Nat) : Bool :=
  match st.cache, st.tsSeconds with
  | some _, some ts => timedeltaSeconds (now - ts) < 300
  | _, _ => false

/-- One `get_sim_info` call: the returned snapshot, whether any AT command
traffic occurred, and the cache state afterwards. -/
structure SimInfoRun where
  result : Nat
  issuedCommands : Bool
  newState : SimCacheState
deriving DecidableEq

/-- `get_sim_info` (head on lines 351-357, tail on lines 432-437): a valid
cache is returned untouched with no command issued; otherwise the query
sequence runs (command traffic) and its result is cached at the current
time. `query` abstracts the snapshot a full query sequence would build. -/
def getSimInfo (st : SimCacheState) (now : Nat) (query : Nat) : SimInfoRun :=
  if cacheValid st now then
    { result := st.cache.getD 0, issuedCommands := false, newState := st }
  else
    { result := query, issuedCommands := true,
      newState := { cache := some query, tsSeconds := some now } }

/-- **C8** (code bug) — within the 5-minute TTL a second call returns the
cached value with no command traffic (first two conjuncts), and just past
the TTL on the same day a fresh query is issued (third conjunct); but because
the code reads `.seconds` (the day-wrapped component) instead of the total
elapsed time, a call one day and one minute after caching — far past the
TTL — still serves the stale cache with no command traffic (last conjuncts),
so elapsed time beyond the TTL does not reliably invalidate the cache. -/
theorem simInfo_cache_day_wrap_bug :
    (getSimInfo ⟨some 7, some 1000⟩ 1200 9).result = 7 ∧
    (getSimInfo ⟨some 7, some 1000⟩ 1200 9).issuedCommands = false ∧
    (getSimInfo ⟨some 7, some 1000⟩ 1301 9).issuedCommands = true ∧
    (getSimInfo ⟨some 7, some 1000⟩ (1000 + 86460) 9).issuedCommands = false ∧
    (getSimInfo ⟨some 7, some 1000⟩ (1000 + 86460) 9).result = 7 ∧
    timedeltaSeconds 86460 = 60 ∧ 300 ≤ 86460 := by decide

/-! ## Fleet coordinator (`connect_modem`, lines 208-270 of
`multi_modem_manager.py`) -/

/-- Structural errors `connect_modem` raises. -/
inductive ConnectError where
  | alreadyConnected
  | limitExceeded
  | notFound
deriving DecidableEq

/-- Coordinator state: ids with a live session (`self.modems` keys), ids
known to the registry (`self.modem_info` keys), and the configured maximum
(`MAX_CONCURRENT_MODEMS`). -/
structure FleetState where
  connectedIds : List String
  knownIds : List String
  maxModems : Nat
deriving DecidableEq

/-- `connect_modem` (lines 231-244), under the coordinator lock: first the
already-connected check, then the limit check (`len(self.modems) >=
MAX_CONCURRENT_MODEMS`), then the registry check; only then does connection
proceed. -/
def connect_modem (st : FleetState) (id : String) : Except ConnectError Unit :=
  if id ∈ st.connectedIds then .error .alreadyConnected
  else if st.maxModems ≤ st.connectedIds.length then .error .limitExceeded
  else if id ∉ st.knownIds then .error .notFound
  else .ok ()

/-- **C10** (counterexample) — with the limit reached (one live session,
maximum 1), reconnecting the already-connected id fails `AlreadyConnected`,
not the `LimitExceeded` the claim requires regardless of id validity. -/
theorem connectModem_limit_counterexample :
    connect_modem ⟨["m1"], ["m1"], 1⟩ "m1" = .error .alreadyConnected ∧
    connect_modem ⟨["m1"], ["m1"], 1⟩ "m1" ≠ .error .limitExceeded := by decide

/-- **C10** (amended) — the already-connected check takes precedence: an id
with a live session fails `AlreadyConnected` even at the limit; for any other
id — known or unknown — `LimitExceeded` wins whenever the active count has
reached the maximum; below the limit an unknown id fails `NotFound` and a
known, disconnected id proceeds. -/
theorem connectModem_error_precedence (st : FleetState) (id : String) :
    (id ∈ st.connectedIds → connect_modem st id = .error .alreadyConnected) ∧
    (id ∉ st.connectedIds → st.maxModems ≤ st.connectedIds.length →
      connect_modem st id = .error .limitExceeded) ∧
    (id ∉ st.connectedIds → st.connectedIds.length < st.maxModems →
      id ∉ st.knownIds → connect_modem st id = .error .notFound) ∧
    (id ∉ st.connectedIds → st.connectedIds.length < st.maxModems →
      id ∈ st.knownIds → connect_modem st id = .ok ()) := by
  refine ⟨fun h => ?_, fun h hl => ?_, fun h hl hk => ?_, fun h hl hk => ?_⟩
  · simp [connect_modem, h]
  · simp [connect_modem, h, hl]
  · simp [connect_modem, h, Nat.not_le_of_lt hl, hk]
  · simp [connect_modem, h, Nat.not_le_of_lt hl, hk]

/-- Witness for C10 (amended): an unknown id at the limit fails
`LimitExceeded`. -/
theorem connectModem_error_precedence_witness :
    connect_modem ⟨["m1"], ["m1"], 1⟩ "ghost" = .error .limitExceeded :=
  (connectModem_error_precedence ⟨["m1"], ["m1"], 1⟩ "ghost").2.1
    (by decide) (by decide)

end SimMgmt
